import Mathlib

/-!
Shallow embedding of the session-multiplexing core of the n8n Discord
trigger node (src/nodes/connectionManager.ts and
src/nodes/DiscordTrigger/DiscordTrigger.node.ts), together with theorems
checking the natural-language specification against it.

The `ConnectionManager` class is modelled as a pure state type
`ManagerState` with explicit state-passing versions of its methods.
`ipc.disconnect('bot')` (channel teardown) is modelled by a counter
`teardownCount` that the `disconnect` operation bumps when it tears the
channel down, so "torn down exactly once" is expressible.
-/

/-- State of the `ConnectionManager` singleton: `connectionCount` and
`registeredNodes` are the class fields (the JS `Set` is modelled as an
insertion-ordered duplicate-free list, which is how `connect` maintains
it); `teardownCount` counts the `ipc.disconnect('bot')` calls issued. -/
structure ManagerState where
  connectionCount : Nat
  registeredNodes : List String
  teardownCount : Nat
deriving DecidableEq

/-- The initial state of the exported singleton `connectionManager`. -/
def freshManager : ManagerState :=
  { connectionCount := 0, registeredNodes := [], teardownCount := 0 }

/-- `ConnectionManager.connect(nodeId)`: increments `connectionCount`;
if `registeredNodes.has(nodeId)` returns `false`, otherwise adds
`nodeId` and returns `true`. -/
def connect (s : ManagerState) (nodeId : String) : Bool × ManagerState :=
  let s1 := { s with connectionCount := s.connectionCount + 1 }
  if nodeId ∈ s1.registeredNodes then
    (false, s1)
  else
    (true, { s1 with registeredNodes := s1.registeredNodes ++ [nodeId] })

/-- `ConnectionManager.disconnect(nodeId)`: returns early if
`connectionCount <= 0`; otherwise decrements, and if the count reached
zero it resets it to 0, clears `registeredNodes` and calls
`ipc.disconnect('bot')` (modelled by bumping `teardownCount`). -/
def disconnect (s : ManagerState) (nodeId : String) : ManagerState :=
  if s.connectionCount = 0 then s
  else
    let c := s.connectionCount - 1
    if c = 0 then
      { connectionCount := 0, registeredNodes := [],
        teardownCount := s.teardownCount + 1 }
    else
      { s with connectionCount := c }

/-- `ConnectionManager.isNodeRegistered(nodeId)`. -/
def isNodeRegistered (s : ManagerState) (nodeId : String) : Bool :=
  s.registeredNodes.contains nodeId

/-- `ConnectionManager.getConnectionCount()`. -/
def getConnectionCount (s : ManagerState) : Nat :=
  s.connectionCount

/-- `ConnectionManager.getRegisteredNodes()` (`Array.from` of the set,
in insertion order). -/
def getRegisteredNodes (s : ManagerState) : List String :=
  s.registeredNodes

/-- Claim C1: `connect(id)` increments `activeCount` by exactly 1 and
returns `true` iff `id` was not already registered, adding it in that
case; when `id` was present it returns `false` and leaves the registered
set unchanged. Consequently, from a fresh registry, for `a ≠ b`,
`connect(a)` then `connect(b)` both return `true`, and `connect(a)`
twice in a row returns `true` then `false`. -/
theorem connect_spec (s : ManagerState) (a b : String) :
    ((connect s a).2.connectionCount = s.connectionCount + 1)
    ∧ ((connect s a).1 = true ↔ a ∉ s.registeredNodes)
    ∧ (a ∉ s.registeredNodes →
        (connect s a).2.registeredNodes = s.registeredNodes ++ [a])
    ∧ (a ∈ s.registeredNodes →
        (connect s a).2.registeredNodes = s.registeredNodes)
    ∧ (a ≠ b →
        (connect freshManager a).1 = true
        ∧ (connect (connect freshManager a).2 b).1 = true)
    ∧ ((connect freshManager a).1 = true
        ∧ (connect (connect freshManager a).2 a).1 = false) := by
  refine ⟨?_, ?_, ?_, ?_, ?_, ?_⟩
  · by_cases h : a ∈ s.registeredNodes <;> simp [connect, h]
  · by_cases h : a ∈ s.registeredNodes <;> simp [connect, h]
  · intro h; simp [connect, h]
  · intro h; simp [connect, h]
  · intro hab; simp [connect, freshManager, Ne.symm hab]
  · simp [connect, freshManager]

/-- Closed witness for `connect_spec` at a concrete state and ids. -/
theorem connect_spec_witness :
    ((connect freshManager "a").2.connectionCount = freshManager.connectionCount + 1)
    ∧ ((connect freshManager "a").1 = true ↔ "a" ∉ freshManager.registeredNodes)
    ∧ ("a" ∉ freshManager.registeredNodes →
        (connect freshManager "a").2.registeredNodes = freshManager.registeredNodes ++ ["a"])
    ∧ ("a" ∈ freshManager.registeredNodes →
        (connect freshManager "a").2.registeredNodes = freshManager.registeredNodes)
    ∧ ("a" ≠ "b" →
        (connect freshManager "a").1 = true
        ∧ (connect (connect freshManager "a").2 "b").1 = true)
    ∧ ((connect freshManager "a").1 = true
        ∧ (connect (connect freshManager "a").2 "a").1 = false) :=
  connect_spec freshManager "a" "b"

/-- Claim C2: `disconnect(id)` is a no-op when the count is 0; otherwise
it decrements the count; while the result stays positive the registered
set (and teardown count) are unchanged; exactly when the decrement
reaches 0 the registered set is cleared and teardown fires exactly once.
After `connect(a)`, `connect(a)`, `disconnect(a)`: count is 1 and `a`
is still registered. -/
theorem disconnect_spec (s : ManagerState) (a nodeId : String) :
    (s.connectionCount = 0 → disconnect s nodeId = s)
    ∧ (0 < s.connectionCount →
        (disconnect s nodeId).connectionCount = s.connectionCount - 1)
    ∧ (1 < s.connectionCount →
        (disconnect s nodeId).registeredNodes = s.registeredNodes
        ∧ (disconnect s nodeId).teardownCount = s.teardownCount)
    ∧ (s.connectionCount = 1 →
        (disconnect s nodeId).registeredNodes = []
        ∧ (disconnect s nodeId).teardownCount = s.teardownCount + 1)
    ∧ (getConnectionCount
         (disconnect (connect (connect freshManager a).2 a).2 a) = 1
        ∧ a ∈ getRegisteredNodes
            (disconnect (connect (connect freshManager a).2 a).2 a)) := by
  refine ⟨?_, ?_, ?_, ?_, ?_⟩
  · intro h; simp [disconnect, h]
  · intro h
    have h0 : s.connectionCount ≠ 0 := Nat.pos_iff_ne_zero.mp h
    by_cases h1 : s.connectionCount - 1 = 0 <;> simp [disconnect, h0, h1]
  · intro h
    have h0 : s.connectionCount ≠ 0 := by omega
    have h1 : s.connectionCount - 1 ≠ 0 := by omega
    simp [disconnect, h0, h1]
  · intro h
    simp [disconnect, h]
  · simp [connect, disconnect, freshManager, getConnectionCount, getRegisteredNodes]

/-- Closed witness for `disconnect_spec` at a concrete state and ids. -/
theorem disconnect_spec_witness :
    (freshManager.connectionCount = 0 → disconnect freshManager "n" = freshManager)
    ∧ (0 < freshManager.connectionCount →
        (disconnect freshManager "n").connectionCount = freshManager.connectionCount - 1)
    ∧ (1 < freshManager.connectionCount →
        (disconnect freshManager "n").registeredNodes = freshManager.registeredNodes
        ∧ (disconnect freshManager "n").teardownCount = freshManager.teardownCount)
    ∧ (freshManager.connectionCount = 1 →
        (disconnect freshManager "n").registeredNodes = []
        ∧ (disconnect freshManager "n").teardownCount = freshManager.teardownCount + 1)
    ∧ (getConnectionCount
         (disconnect (connect (connect freshManager "a").2 "a").2 "a") = 1
        ∧ "a" ∈ getRegisteredNodes
            (disconnect (connect (connect freshManager "a").2 "a").2 "a")) :=
  disconnect_spec freshManager "a" "n"

/-- One call on the registry: either `connect(nodeId)` or
`disconnect(nodeId)`. -/
inductive RegistryOp where
  | connectOp (nodeId : String)
  | disconnectOp (nodeId : String)
deriving DecidableEq

/-- Apply one registry call to the state. -/
def applyOp (s : ManagerState) : RegistryOp → ManagerState
  | .connectOp n => (connect s n).2
  | .disconnectOp n => disconnect s n

/-- Run a finite sequence of registry calls from a state. -/
def runOps (s : ManagerState) (ops : List RegistryOp) : ManagerState :=
  ops.foldl applyOp s

/-- Whether a registry call is a `connect` call. -/
def isConnectOp : RegistryOp → Bool
  | .connectOp _ => true
  | .disconnectOp _ => false

/-- Number of `connect` calls in a sequence. -/
def countConnects (ops : List RegistryOp) : Nat :=
  (ops.filter isConnectOp).length

/-- Number of `disconnect` calls in a sequence. -/
def countDisconnects (ops : List RegistryOp) : Nat :=
  (ops.filter (fun o => !(isConnectOp o))).length

/-- Per-call effect of a registry call on the connection count: a
`connect` adds 1, a `disconnect` subtracts 1 truncated at 0 (a
`disconnect` at count 0 is a no-op). -/
def stepCount (n : Nat) : RegistryOp → Nat
  | .connectOp _ => n + 1
  | .disconnectOp _ => n - 1

/-- Counterexample to claim C4 as stated: after
`disconnect("a")` then `connect("a")` from a fresh registry the count is
1, but the claimed global formula `#connects - #disconnects` floored at
0 gives `max(1 - 1, 0) = 0`. -/
theorem connectionCount_formula_counterexample :
    (runOps freshManager
        [RegistryOp.disconnectOp "a", RegistryOp.connectOp "a"]).connectionCount
      ≠ Int.toNat
          ((countConnects [RegistryOp.disconnectOp "a", RegistryOp.connectOp "a"] : Int)
            - (countDisconnects [RegistryOp.disconnectOp "a", RegistryOp.connectOp "a"] : Int)) := by
  decide

/-- The per-call count effect agrees with `applyOp`. -/
theorem applyOp_connectionCount (s : ManagerState) (op : RegistryOp) :
    (applyOp s op).connectionCount = stepCount s.connectionCount op := by
  cases op with
  | connectOp n =>
      by_cases h : n ∈ s.registeredNodes <;> simp [applyOp, connect, stepCount, h]
  | disconnectOp n =>
      by_cases h0 : s.connectionCount = 0
      · simp [applyOp, disconnect, stepCount, h0]
      · by_cases h1 : s.connectionCount - 1 = 0 <;>
          simp [applyOp, disconnect, stepCount, h0, h1]

/-- Fold form of the connection count over any starting state. -/
theorem runOps_connectionCount (ops : List RegistryOp) (s : ManagerState) :
    (runOps s ops).connectionCount = ops.foldl stepCount s.connectionCount := by
  induction ops generalizing s with
  | nil => rfl
  | cons op t ih =>
      show (runOps (applyOp s op) t).connectionCount
        = t.foldl stepCount (stepCount s.connectionCount op)
      rw [ih, applyOp_connectionCount]

/-- Claim C4 (amended): after any finite sequence of registry calls from
a fresh registry, `connectionCount()` equals the left fold of the
sequence starting from 0 in which each `connect` adds 1 and each
`disconnect` subtracts 1 truncated at 0 at that step (a `disconnect`
arriving at count 0 is a no-op and is not offset against later
`connect`s), independent of the registered-node set. -/
theorem connectionCount_stepwise (ops : List RegistryOp) :
    (runOps freshManager ops).connectionCount = ops.foldl stepCount 0 :=
  runOps_connectionCount ops freshManager

/-- The registry invariant of claim C5: the registered set is non-empty
only while the channel is connected (`connectionCount > 0`). -/
def registryInvariant (s : ManagerState) : Prop :=
  s.registeredNodes ≠ [] → 0 < s.connectionCount

/-- Claim C5: the invariant "registered set non-empty implies count
positive" holds in the initial state and is preserved by every `connect`
and `disconnect`, for every id. -/
theorem registryInvariant_preserved (s : ManagerState) (nodeId : String)
    (h : registryInvariant s) :
    registryInvariant freshManager
    ∧ registryInvariant (connect s nodeId).2
    ∧ registryInvariant (disconnect s nodeId) := by
  refine ⟨?_, ?_, ?_⟩
  · intro hne; simp [freshManager] at hne
  · intro hne
    by_cases hm : nodeId ∈ s.registeredNodes <;> simp [connect, hm]
  · intro hne
    by_cases h0 : s.connectionCount = 0
    · simp only [disconnect, h0, if_true, if_pos] at hne ⊢
      have hpos := h hne
      omega
    · by_cases h1 : s.connectionCount - 1 = 0
      · simp [disconnect, h0, h1] at hne
      · simp [disconnect, h0, h1]
        omega

/-- Closed witness for `registryInvariant_preserved` at the fresh state. -/
theorem registryInvariant_preserved_witness :
    registryInvariant freshManager
    ∧ registryInvariant (connect freshManager "a").2
    ∧ registryInvariant (disconnect freshManager "a") :=
  registryInvariant_preserved freshManager "a" (fun hne => absurd rfl hne)

/-- The `discordBotTriggerApi` credentials object, as far as the trigger
path reads it. -/
structure ICredentials where
  token : String
deriving DecidableEq

/-- The JS truthiness test `credentials?.token`: false when the
credentials are absent (or the lookup failed) or the token string is
empty. -/
def hasToken : Option ICredentials → Bool
  | none => false
  | some c => c.token != ""

/-- The event names for which the `ipc.connectTo` callback attaches
handlers on `ipc.of.bot`, in source order. -/
def handlerEventNames : List String :=
  ["messageCreate", "guildMemberAdd", "guildMemberRemove", "guildMemberUpdate",
   "messageReactionAdd", "messageReactionRemove", "roleCreate", "roleDelete",
   "roleUpdate"]

/-- Observable outcome of one `DiscordTrigger.trigger` activation:
whether a cleanup (`closeFunction`) was returned, whether the
`triggerNodeRegistered` message was emitted, and which event handlers
were attached in this activation. -/
structure TriggerResult where
  hasCloseFunction : Bool
  sentRegistration : Bool
  attachedEvents : List String
deriving DecidableEq

/-- `DiscordTrigger.trigger`, reduced to its effect on the registry and
its observable activation actions: with no usable token it returns `{}`
(no close function) at once; otherwise the `ipc.connectTo` callback
calls `connectionManager.connect(nodeId)`, always emits
`triggerNodeRegistered`, and attaches the event handlers only when
`connect` returned `true`. -/
def trigger (credentials : Option ICredentials) (nodeId : String)
    (s : ManagerState) : TriggerResult × ManagerState :=
  if hasToken credentials then
    let r := connect s nodeId
    ({ hasCloseFunction := true, sentRegistration := true,
       attachedEvents := if r.1 then handlerEventNames else [] }, r.2)
  else
    ({ hasCloseFunction := false, sentRegistration := false,
       attachedEvents := [] }, s)

/-- Claim C3: on every activation that reaches the channel callback
(token present), the registration message is sent unconditionally —
also when `connect` returned `false` — and handlers are attached iff
`connect` returned `true`; when it returned `false` no handler of any
kind is attached. -/
theorem trigger_registration_spec (credentials : Option ICredentials)
    (nodeId : String) (s : ManagerState)
    (htok : hasToken credentials = true) :
    (trigger credentials nodeId s).1.sentRegistration = true
    ∧ ((trigger credentials nodeId s).1.attachedEvents ≠ [] ↔
        (connect s nodeId).1 = true)
    ∧ ((connect s nodeId).1 = false →
        (trigger credentials nodeId s).1.attachedEvents = [])
    ∧ ((connect s nodeId).1 = true →
        (trigger credentials nodeId s).1.attachedEvents = handlerEventNames) := by
  refine ⟨?_, ?_, ?_, ?_⟩
  · simp [trigger, htok]
  · by_cases hc : (connect s nodeId).1 <;>
      simp [trigger, htok, hc, handlerEventNames]
  · intro hc; simp [trigger, htok, hc]
  · intro hc; simp [trigger, htok, hc]

/-- Closed witness for `trigger_registration_spec`: a repeat activation
of the same node id still sends the registration message but attaches
nothing. -/
theorem trigger_registration_spec_witness :
    (trigger (some ⟨"tok"⟩) "a" (connect freshManager "a").2).1.sentRegistration = true
    ∧ ((trigger (some ⟨"tok"⟩) "a" (connect freshManager "a").2).1.attachedEvents ≠ [] ↔
        (connect (connect freshManager "a").2 "a").1 = true)
    ∧ ((connect (connect freshManager "a").2 "a").1 = false →
        (trigger (some ⟨"tok"⟩) "a" (connect freshManager "a").2).1.attachedEvents = [])
    ∧ ((connect (connect freshManager "a").2 "a").1 = true →
        (trigger (some ⟨"tok"⟩) "a" (connect freshManager "a").2).1.attachedEvents
          = handlerEventNames) :=
  trigger_registration_spec (some ⟨"tok"⟩) "a" (connect freshManager "a").2 (by decide)

/-- Claim C10: when the credentials are absent or carry no token, the
activation returns an empty result without a close function and without
touching the registry: `connect` is not called, so the whole registry
state (count, registered set, teardown count) is unchanged, and no
registration message is sent and no handler is attached. -/
theorem trigger_no_token_spec (credentials : Option ICredentials)
    (nodeId : String) (s : ManagerState)
    (htok : hasToken credentials = false) :
    (trigger credentials nodeId s).1.hasCloseFunction = false
    ∧ (trigger credentials nodeId s).1.sentRegistration = false
    ∧ (trigger credentials nodeId s).1.attachedEvents = []
    ∧ (trigger credentials nodeId s).2 = s := by
  refine ⟨?_, ?_, ?_, ?_⟩ <;> simp [trigger, htok]

/-- Closed witness for `trigger_no_token_spec` with absent credentials. -/
theorem trigger_no_token_spec_witness :
    (trigger none "a" freshManager).1.hasCloseFunction = false
    ∧ (trigger none "a" freshManager).1.sentRegistration = false
    ∧ (trigger none "a" freshManager).1.attachedEvents = []
    ∧ (trigger none "a" freshManager).2 = freshManager :=
  trigger_no_token_spec none "a" freshManager (by decide)

/-- The fields of the `message` object read by the `messageCreate`
handler. -/
structure MessageInfo where
  id : String
  content : String
  channelId : String
  createdTimestamp : Nat
deriving DecidableEq

/-- The fields of an author/user object read by the handlers. -/
structure AuthorInfo where
  id : String
  username : String
  bot : Bool
  system : Bool
deriving DecidableEq

/-- The fields of the `guild` object read by the `messageCreate`
handler (`guild?.id`). -/
structure GuildInfo where
  id : String
deriving DecidableEq

/-- The fields of the `messageReference` object read by the handler. -/
structure MessageReferenceInfo where
  id : String
  content : String
  createdTimestamp : Nat
deriving DecidableEq

/-- Payload of an inbound `messageCreate` event as destructured by the
handler: `{ message, author, guild, nodeId, messageReference,
attachments, referenceAuthor }`. `guild`, `messageReference` and
`attachments` may be absent (`Option`); the attachments payload itself
is kept opaque as a list of strings. -/
structure MessageCreateEvent where
  message : MessageInfo
  author : AuthorInfo
  guild : Option GuildInfo
  nodeId : String
  messageReference : Option MessageReferenceInfo
  attachments : Option (List String)
  referenceAuthor : AuthorInfo
deriving DecidableEq

/-- The record emitted for a matching `messageCreate` event
(`messageCreateOptions` in the source); fields initialised to `null`
or added conditionally are `Option`s, `none` being the null/absent
sentinel. -/
structure MessageCreateOptions where
  id : String
  content : String
  guildId : Option String
  channelId : String
  authorId : String
  authorName : String
  timestamp : Nat
  listenValue : String
  authorIsBot : Bool
  referenceId : Option String
  referenceContent : Option String
  referenceAuthorId : Option String
  referenceAuthorName : Option String
  referenceTimestamp : Option Nat
  attachments : Option (List String)
deriving DecidableEq

/-- Construction of `messageCreateOptions` by the `messageCreate`
handler: the base record sets the five reference fields to `null`; if
`messageReference` is present they are overwritten from
`messageReference` and `referenceAuthor`; `attachments` is added only
if present. `listenValue` comes from the client's own `value`
parameter. -/
def buildMessageCreateOptions (listenValue : String)
    (ev : MessageCreateEvent) : MessageCreateOptions :=
  let base : MessageCreateOptions :=
    { id := ev.message.id
      content := ev.message.content
      guildId := ev.guild.map GuildInfo.id
      channelId := ev.message.channelId
      authorId := ev.author.id
      authorName := ev.author.username
      timestamp := ev.message.createdTimestamp
      listenValue := listenValue
      authorIsBot := ev.author.bot || ev.author.system
      referenceId := none
      referenceContent := none
      referenceAuthorId := none
      referenceAuthorName := none
      referenceTimestamp := none
      attachments := none }
  let withRef :=
    match ev.messageReference with
    | none => base
    | some r =>
        { base with
          referenceId := some r.id
          referenceContent := some r.content
          referenceAuthorId := some ev.referenceAuthor.id
          referenceAuthorName := some ev.referenceAuthor.username
          referenceTimestamp := some r.createdTimestamp }
  match ev.attachments with
  | none => withRef
  | some a => { withRef with attachments := some a }

/-- The `messageCreate` handler of one client: it emits the built
record to its own sink iff its own node id equals the event's `nodeId`
(`this.getNode().id === nodeId`), else emits nothing. -/
def messageCreateHandler (selfId listenValue : String)
    (ev : MessageCreateEvent) : Option MessageCreateOptions :=
  if selfId = ev.nodeId then some (buildMessageCreateOptions listenValue ev)
  else none

/-- Claim C6: a client's `messageCreate` handler delivers a record to
its sink iff the client's own identity equals the event's target id;
an event targeted at `a` yields nothing from a client `b ≠ a`. -/
theorem messageCreate_filtering (selfId listenValue : String)
    (ev : MessageCreateEvent) (b : String)
    (hne : b ≠ ev.nodeId) :
    ((messageCreateHandler selfId listenValue ev).isSome ↔ selfId = ev.nodeId)
    ∧ (selfId = ev.nodeId →
        messageCreateHandler selfId listenValue ev
          = some (buildMessageCreateOptions listenValue ev))
    ∧ messageCreateHandler b listenValue ev = none := by
  refine ⟨?_, ?_, ?_⟩
  · by_cases h : selfId = ev.nodeId <;> simp [messageCreateHandler, h]
  · intro h; simp [messageCreateHandler, h]
  · simp [messageCreateHandler, hne]

/-- Closed witness for `messageCreate_filtering` at a concrete event
targeted at `"a"`, with the non-matching client `"b"`. -/
theorem messageCreate_filtering_witness :
    ((messageCreateHandler "a" "v"
        { message := { id := "m", content := "hi", channelId := "c", createdTimestamp := 5 }
          author := { id := "u", username := "alice", bot := false, system := false }
          guild := some { id := "g" }
          nodeId := "a"
          messageReference := none
          attachments := none
          referenceAuthor := { id := "r", username := "ref", bot := false, system := false } }).isSome
      ↔ "a" = "a")
    ∧ ("a" = "a" →
        messageCreateHandler "a" "v"
          { message := { id := "m", content := "hi", channelId := "c", createdTimestamp := 5 }
            author := { id := "u", username := "alice", bot := false, system := false }
            guild := some { id := "g" }
            nodeId := "a"
            messageReference := none
            attachments := none
            referenceAuthor := { id := "r", username := "ref", bot := false, system := false } }
          = some (buildMessageCreateOptions "v"
              { message := { id := "m", content := "hi", channelId := "c", createdTimestamp := 5 }
                author := { id := "u", username := "alice", bot := false, system := false }
                guild := some { id := "g" }
                nodeId := "a"
                messageReference := none
                attachments := none
                referenceAuthor := { id := "r", username := "ref", bot := false, system := false } }))
    ∧ messageCreateHandler "b" "v"
        { message := { id := "m", content := "hi", channelId := "c", createdTimestamp := 5 }
          author := { id := "u", username := "alice", bot := false, system := false }
          guild := some { id := "g" }
          nodeId := "a"
          messageReference := none
          attachments := none
          referenceAuthor := { id := "r", username := "ref", bot := false, system := false } }
        = none :=
  messageCreate_filtering "a" "v" _ "b" (by decide)

/-- Claim C8: without a message reference all five reference fields of
the emitted record are the null sentinel; with a reference they are
populated from the reference object (and the reference author); the
attachments field is included iff attachments are present. -/
theorem messageCreate_reference_fields (listenValue : String)
    (ev : MessageCreateEvent) :
    (ev.messageReference = none →
        (buildMessageCreateOptions listenValue ev).referenceId = none
        ∧ (buildMessageCreateOptions listenValue ev).referenceContent = none
        ∧ (buildMessageCreateOptions listenValue ev).referenceAuthorId = none
        ∧ (buildMessageCreateOptions listenValue ev).referenceAuthorName = none
        ∧ (buildMessageCreateOptions listenValue ev).referenceTimestamp = none)
    ∧ (∀ r : MessageReferenceInfo, ev.messageReference = some r →
        (buildMessageCreateOptions listenValue ev).referenceId = some r.id
        ∧ (buildMessageCreateOptions listenValue ev).referenceContent = some r.content
        ∧ (buildMessageCreateOptions listenValue ev).referenceAuthorId
            = some ev.referenceAuthor.id
        ∧ (buildMessageCreateOptions listenValue ev).referenceAuthorName
            = some ev.referenceAuthor.username
        ∧ (buildMessageCreateOptions listenValue ev).referenceTimestamp
            = some r.createdTimestamp)
    ∧ (buildMessageCreateOptions listenValue ev).attachments = ev.attachments := by
  refine ⟨?_, ?_, ?_⟩
  · intro hr
    cases ha : ev.attachments <;> simp [buildMessageCreateOptions, hr, ha]
  · intro r hr
    cases ha : ev.attachments <;> simp [buildMessageCreateOptions, hr, ha]
  · cases hr : ev.messageReference <;> cases ha : ev.attachments <;>
      simp [buildMessageCreateOptions, hr, ha]

/-- Closed witness for `messageCreate_reference_fields`: at a concrete
event carrying a reference and attachments, the reference fields are
populated and the attachments kept. -/
theorem messageCreate_reference_fields_witness :
    ((buildMessageCreateOptions "v"
        { message := { id := "m", content := "hi", channelId := "c", createdTimestamp := 5 }
          author := { id := "u", username := "alice", bot := false, system := false }
          guild := some { id := "g" }
          nodeId := "a"
          messageReference := some { id := "mr", content := "orig", createdTimestamp := 3 }
          attachments := some ["f.png"]
          referenceAuthor := { id := "r", username := "ref", bot := true, system := false } }).referenceId
        = some "mr"
      ∧ (buildMessageCreateOptions "v"
          { message := { id := "m", content := "hi", channelId := "c", createdTimestamp := 5 }
            author := { id := "u", username := "alice", bot := false, system := false }
            guild := some { id := "g" }
            nodeId := "a"
            messageReference := some { id := "mr", content := "orig", createdTimestamp := 3 }
            attachments := some ["f.png"]
            referenceAuthor := { id := "r", username := "ref", bot := true, system := false } }).referenceContent
        = some "orig"
      ∧ (buildMessageCreateOptions "v"
          { message := { id := "m", content := "hi", channelId := "c", createdTimestamp := 5 }
            author := { id := "u", username := "alice", bot := false, system := false }
            guild := some { id := "g" }
            nodeId := "a"
            messageReference := some { id := "mr", content := "orig", createdTimestamp := 3 }
            attachments := some ["f.png"]
            referenceAuthor := { id := "r", username := "ref", bot := true, system := false } }).referenceAuthorId
        = some "r"
      ∧ (buildMessageCreateOptions "v"
          { message := { id := "m", content := "hi", channelId := "c", createdTimestamp := 5 }
            author := { id := "u", username := "alice", bot := false, system := false }
            guild := some { id := "g" }
            nodeId := "a"
            messageReference := some { id := "mr", content := "orig", createdTimestamp := 3 }
            attachments := some ["f.png"]
            referenceAuthor := { id := "r", username := "ref", bot := true, system := false } }).referenceAuthorName
        = some "ref"
      ∧ (buildMessageCreateOptions "v"
          { message := { id := "m", content := "hi", channelId := "c", createdTimestamp := 5 }
            author := { id := "u", username := "alice", bot := false, system := false }
            guild := some { id := "g" }
            nodeId := "a"
            messageReference := some { id := "mr", content := "orig", createdTimestamp := 3 }
            attachments := some ["f.png"]
            referenceAuthor := { id := "r", username := "ref", bot := true, system := false } }).referenceTimestamp
        = some 3)
    ∧ (buildMessageCreateOptions "v"
        { message := { id := "m", content := "hi", channelId := "c", createdTimestamp := 5 }
          author := { id := "u", username := "alice", bot := false, system := false }
          guild := some { id := "g" }
          nodeId := "a"
          messageReference := some { id := "mr", content := "orig", createdTimestamp := 3 }
          attachments := some ["f.png"]
          referenceAuthor := { id := "r", username := "ref", bot := true, system := false } }).attachments
        = some ["f.png"] :=
  ⟨(messageCreate_reference_fields "v" _).2.1
      { id := "mr", content := "orig", createdTimestamp := 3 } rfl,
    (messageCreate_reference_fields "v" _).2.2⟩

/-- JS `key.charAt(0).toUpperCase() + key.slice(1)` (empty key stays
empty; only the first character is upper-cased). -/
def capitalizeFirst (s : String) : String :=
  match s.data with
  | [] => ""
  | c :: rest => String.mk (c.toUpper :: rest)

/-- Setting key `k` to `v` on a JS object represented as its ordered
entry list: if `k` is already a key its value is updated in place
(keeping its position), otherwise the entry is appended. This is the
per-entry step of `Object.fromEntries` and of object spread, where a
later duplicate key wins but keeps the first occurrence's position. -/
def setEntry {V : Type} (l : List (String × V)) (k : String) (v : V) :
    List (String × V) :=
  if l.any (fun p => p.1 == k) then
    l.map (fun p => if p.1 == k then (k, v) else p)
  else l ++ [(k, v)]

/-- JS object spread `{...a, ...b}` on ordered entry lists. -/
def spreadMerge {V : Type} (a b : List (String × V)) : List (String × V) :=
  b.foldl (fun acc p => setEntry acc p.1 p.2) a

/-- JS `Object.fromEntries`: builds an object from an entry list,
later duplicate keys overwriting earlier ones. -/
def jsFromEntries {V : Type} (l : List (String × V)) : List (String × V) :=
  spreadMerge [] l

/-- The raw renaming performed inside the handlers' `addPrefix`:
`[`${prefix}${key.charAt(0).toUpperCase()}${key.slice(1)}`, value]`
for every entry, before `Object.fromEntries` recombines them. -/
def prefixedEntries {V : Type} (obj : List (String × V)) (pre : String) :
    List (String × V) :=
  obj.map (fun p => (pre ++ capitalizeFirst p.1, p.2))

/-- The `addPrefix` helper of the `guildMemberUpdate` and `roleUpdate`
handlers: `Object.fromEntries(Object.entries(obj).map(...))`. -/
def addPrefix {V : Type} (obj : List (String × V)) (pre : String) :
    List (String × V) :=
  jsFromEntries (prefixedEntries obj pre)

/-- Payload of an inbound `guildMemberUpdate` event as destructured by
the handler: `{ oldMember, newMember, guild, nodeId }`, the three
objects kept as ordered entry lists with string values. -/
structure GuildMemberUpdateEvent where
  oldMember : List (String × String)
  newMember : List (String × String)
  guild : List (String × String)
  nodeId : String
deriving DecidableEq

/-- `mergedGuildMemberUpdateOptions`: the object literal
`{...addPrefix(oldMember, "old"), ...addPrefix(newMember, "new"),
...addPrefix(guild, "guild")}`. -/
def guildMemberUpdateMerge (oldMember newMember guild : List (String × String)) :
    List (String × String) :=
  spreadMerge (spreadMerge ( addPrefix oldMember "old") ( addPrefix newMember "new"))
    ( addPrefix guild "guild")

/-- The `guildMemberUpdate` handler of one client: emits the merged
record iff its own node id equals the event's `nodeId`. -/
def guildMemberUpdateHandler (selfId : String) (ev : GuildMemberUpdateEvent) :
    Option (List (String × String)) :=
  if selfId = ev.nodeId then
    some (guildMemberUpdateMerge ev.oldMember ev.newMember ev.guild)
  else none

/-- `setEntry` on a fresh key is an append. -/
theorem setEntry_not_mem {V : Type} (l : List (String × V)) (k : String) (v : V)
    (h : k ∉ l.map Prod.fst) : setEntry l k v = l ++ [(k, v)] := by
  have hany : l.any (fun p => p.1 == k) = false := by
    apply List.any_eq_false.mpr
    intro p hp hbeq
    have he : p.1 = k := by simpa using hbeq
    exact h (he ▸ List.mem_map_of_mem Prod.fst hp)
  simp [setEntry, hany]

/-- Spreading an object whose keys are fresh and duplicate-free is a
plain append. -/
theorem spreadMerge_disjoint {V : Type} (b : List (String × V)) :
    ∀ a : List (String × V), (b.map Prod.fst).Nodup →
      (∀ k ∈ b.map Prod.fst, k ∉ a.map Prod.fst) →
      spreadMerge a b = a ++ b := by
  induction b with
  | nil => intro a _ _; simp [spreadMerge]
  | cons p t ih =>
      intro a hnd hdisj
      obtain ⟨k, v⟩ := p
      simp only [List.map_cons, List.nodup_cons] at hnd
      have hk : k ∉ a.map Prod.fst := hdisj k (by simp)
      have step : spreadMerge a ((k, v) :: t) = spreadMerge (a ++ [(k, v)]) t := by
        simp only [spreadMerge, List.foldl_cons]
        rw [setEntry_not_mem a k v hk]
      rw [step, ih (a ++ [(k, v)]) hnd.2 ?_]
      · simp
      · intro k2 hk2
        simp only [List.map_append, List.mem_append, List.map_cons, List.map_nil]
        rintro (h1 | h2)
        · exact hdisj k2 (by simp [hk2]) h1
        · simp only [List.mem_singleton] at h2
          exact hnd.1 (h2 ▸ hk2)

/-- `Object.fromEntries` of a duplicate-free entry list is the list
itself. -/
theorem jsFromEntries_nodup {V : Type} (l : List (String × V))
    (h : (l.map Prod.fst).Nodup) : jsFromEntries l = l := by
  have h2 := spreadMerge_disjoint l [] h (by simp)
  rw [List.nil_append] at h2
  exact h2

/-- Claim C7: for a matching `guildMemberUpdate` event whose prefixed
keys are pairwise distinct, the emitted record is exactly the fields of
the old member prefixed with `old`, then the fields of the new member
prefixed with `new`, then the fields of the guild prefixed with
`guild`, each original field name with its first letter capitalized,
and nothing else. -/
theorem guildMemberUpdate_merge_spec (selfId : String)
    (ev : GuildMemberUpdateEvent) (hmatch : selfId = ev.nodeId)
    (hkeys : ((prefixedEntries ev.oldMember "old"
        ++ prefixedEntries ev.newMember "new"
        ++ prefixedEntries ev.guild "guild").map Prod.fst).Nodup) :
    guildMemberUpdateHandler selfId ev
      = some (prefixedEntries ev.oldMember "old"
          ++ prefixedEntries ev.newMember "new"
          ++ prefixedEntries ev.guild "guild") := by
  simp only [List.map_append, List.nodup_append] at hkeys
  obtain ⟨⟨hndo, hndn, hdon⟩, hndg, hdog⟩ := hkeys
  have ho : addPrefix ev.oldMember "old" = prefixedEntries ev.oldMember "old" :=
    jsFromEntries_nodup _ hndo
  have hn : addPrefix ev.newMember "new" = prefixedEntries ev.newMember "new" :=
    jsFromEntries_nodup _ hndn
  have hg : addPrefix ev.guild "guild" = prefixedEntries ev.guild "guild" :=
    jsFromEntries_nodup _ hndg
  have hon : spreadMerge (prefixedEntries ev.oldMember "old")
      (prefixedEntries ev.newMember "new")
      = prefixedEntries ev.oldMember "old" ++ prefixedEntries ev.newMember "new" := by
    refine spreadMerge_disjoint _ _ hndn ?_
    intro k hk hko
    exact hdon hko hk
  have hg2 : spreadMerge
      (prefixedEntries ev.oldMember "old" ++ prefixedEntries ev.newMember "new")
      (prefixedEntries ev.guild "guild")
      = (prefixedEntries ev.oldMember "old" ++ prefixedEntries ev.newMember "new")
        ++ prefixedEntries ev.guild "guild" := by
    refine spreadMerge_disjoint _ _ hndg ?_
    intro k hk hkon
    simp only [List.map_append, List.mem_append] at hkon
    rcases hkon with h1 | h2
    · exact hdog (List.mem_append.mpr (Or.inl h1)) hk
    · exact hdog (List.mem_append.mpr (Or.inr h2)) hk
  simp [guildMemberUpdateHandler, hmatch, guildMemberUpdateMerge,
    ho, hn, hg, hon, hg2, List.append_assoc]

/-- Closed witness for `guildMemberUpdate_merge_spec`: the spec's own
example, old `{nickname: "x"}`, new `{nickname: "y"}`, guild
`{name: "G"}`, merged into exactly `{oldNickname: "x", newNickname:
"y", guildName: "G"}`. -/
theorem guildMemberUpdate_merge_spec_witness :
    (("n" : String) = "n")
    ∧ (((prefixedEntries [(("nickname" : String), ("x" : String))] "old"
        ++ prefixedEntries [("nickname", "y")] "new"
        ++ prefixedEntries [("name", "G")] "guild").map Prod.fst).Nodup)
    ∧ guildMemberUpdateHandler "n"
        { oldMember := [("nickname", "x")], newMember := [("nickname", "y")],
          guild := [("name", "G")], nodeId := "n" }
        = some [("oldNickname", "x"), ("newNickname", "y"), ("guildName", "G")] := by
  refine ⟨rfl, by decide, ?_⟩
  rw [guildMemberUpdate_merge_spec "n" _ rfl (by decide)]
  decide

/-- Claim C9: the prefix renaming is not injective on the keys of one
source object: `"id"` and `"Id"` are distinct keys that both rename to
`"oldId"`, so the merged record keeps only the later value (`"2"`) and
the earlier value (`"1"`) is silently lost. -/
theorem addPrefix_capitalization_collision :
    (("id" : String) ≠ "Id")
    ∧ ("old" ++ capitalizeFirst "id" = "old" ++ capitalizeFirst "Id")
    ∧ ( addPrefix [(("id" : String), ("1" : String)), ("Id", "2")] "old"
        = [("oldId", "2")])
    ∧ (("1" : String) ∉
        ( addPrefix [(("id" : String), ("1" : String)), ("Id", "2")] "old").map
          Prod.snd)
    ∧ (guildMemberUpdateMerge [("id", "1"), ("Id", "2")] [] []
        = [("oldId", "2")]) := by
  refine ⟨by decide, by decide, by decide, by decide, by decide⟩
